import Mathlib

/-!
Shallow embedding of the Instagram webhook bot (`src/app.py`): the relational
data model, the keyword-rule table, event routing for webhook deliveries, the
DM and comment sub-flows, and the two webhook endpoints.  Python exceptions
are modelled with `Except String`; a raising dictionary access `d["k"]` maps
to `pyGet`, a non-raising `d.get("k")` to an `Option` field; Python truthiness
of optional strings and lists is made explicit.  Theorems checking the
specification's claims follow the definitions.
-/

namespace Bot

/-- Python `str.lower` (ASCII case folding, as used by the source). -/
def lowerStr (s : String) : String := String.mk (s.data.map Char.toLower)

/-- Does the second list start with the first? -/
def startsWithList : List Char → List Char → Bool
  | [], _ => true
  | _ :: _, [] => false
  | a :: as, b :: bs => a == b && startsWithList as bs

/-- Python substring test `needle in hay` on character lists. -/
def containsList (needle : List Char) : List Char → Bool
  | [] => needle.isEmpty
  | c :: rest => startsWithList needle (c :: rest) || containsList needle rest

/-- Python `needle in hay` for strings. -/
def containsStr (hay needle : String) : Bool := containsList needle.data hay.data

/-- Python `str.replace` on character lists: scans left to right, replaces
non-overlapping occurrences, and never rescans the replacement text.  The
recursion is driven by a fuel counter of one unit per scanned character so
that the definition is structural (and hence computes); `hay.length` units
always suffice, since every step consumes at least one character. -/
def replaceFuel (pat repl : List Char) : Nat → List Char → List Char
  | 0, hay => hay
  | _ + 1, [] => []
  | fuel + 1, c :: rest =>
      if !pat.isEmpty && startsWithList pat (c :: rest) then
        repl ++ replaceFuel pat repl fuel (rest.drop (pat.length - 1))
      else
        c :: replaceFuel pat repl fuel rest

/-- Python `str.replace` on character lists. -/
def replaceList (pat repl hay : List Char) : List Char :=
  replaceFuel pat repl hay.length hay

/-- Python `str.replace` for strings. -/
def pyReplace (s pat repl : String) : String :=
  String.mk (replaceList pat.data repl.data s.data)

/-- The literal `"{username}"` placeholder of the reply templates. -/
def usernamePat : String := "{username}"

/-- Raising dictionary access `d["k"]`: `KeyError` when the key is absent
(or `TypeError` where the source would apply an operator to `None`). -/
def pyGet {α : Type} (o : Option α) (err : String) : Except String α :=
  match o with
  | some a => .ok a
  | none => .error err

/-- Python truthiness of an optional string (absent or empty is falsy). -/
def truthyStr : Option String → Bool
  | none => false
  | some s => s != ""

/-- Python truthiness of an optional list (absent or empty is falsy). -/
def truthyList {α : Type} : Option (List α) → Bool
  | none => false
  | some [] => false
  | some (_ :: _) => true

/-- Python f-string rendering of a possibly absent string (`None` prints
as `"None"`). -/
def pyStrOfOpt : Option String → String
  | none => "None"
  | some s => s

/-- Python `x or d` for an optional string: absent or empty falls back. -/
def orElseStr (o : Option String) (d : String) : String :=
  match o with
  | none => d
  | some s => if s == "" then d else s

/-- A row of the `User` table (`src/app.py`, class `User`). -/
structure UserRow where
  id : Nat
  psid : Option String
  instagram_id : Option String
  instagram_username : Option String
  created_at : Nat
  last_interaction_at : Nat

/-- A row of the `Message` table (class `Message`). -/
structure MessageRow where
  id : Nat
  user_id : Option Nat
  message_type : String
  message_text : Option String
  timestamp : Nat

/-- A row of the `Comment` table (class `Comment`). -/
structure CommentRow where
  id : Nat
  user_id : Option Nat
  comment_id : String
  media_id : String
  comment_text : Option String
  timestamp : Nat

/-- The SQLite database: the three tables plus autoincrement counters. -/
structure Store where
  users : List UserRow
  messages : List MessageRow
  comments : List CommentRow
  nextUserId : Nat
  nextMessageId : Nat
  nextCommentId : Nat

/-- The empty database right after `db.create_all()`. -/
def store0 : Store :=
  { users := [], messages := [], comments := [],
    nextUserId := 1, nextMessageId := 1, nextCommentId := 1 }

/-- `User.query.filter_by(psid=...).first()`. -/
def findUserByPsid (st : Store) (p : String) : Option UserRow :=
  st.users.find? (fun u => u.psid == some p)

/-- `User.query.filter_by(instagram_id=...).first()`. -/
def findUserByIgId (st : Store) (g : String) : Option UserRow :=
  st.users.find? (fun u => u.instagram_id == some g)

/-- The `unique=True` constraint on `User.psid` (multiple NULLs allowed). -/
def psidFree (st : Store) : Option String → Bool
  | none => true
  | some p => st.users.all (fun u => u.psid != some p)

/-- The `unique=True` constraint on `User.instagram_id`. -/
def igFree (st : Store) : Option String → Bool
  | none => true
  | some g => st.users.all (fun u => u.instagram_id != some g)

/-- `db.session.add(user); db.session.commit()` for a new user row: the commit
enforces the unique columns of the `User` schema.  The caller assigns the
fresh primary key `st.nextUserId`, mirroring autoincrement. -/
def insertUser (st : Store) (u : UserRow) : Except String Store :=
  if psidFree st u.psid && igFree st u.instagram_id then
    .ok { st with users := st.users ++ [u], nextUserId := st.nextUserId + 1 }
  else
    .error "IntegrityError: user"

/-- Committing a field update of the user row with the given primary key. -/
def updateUserRow (st : Store) (uid : Nat) (f : UserRow → UserRow) : Store :=
  { st with users := st.users.map (fun r => if r.id == uid then f r else r) }

/-- Append a `Message` row (this table has no unique payload columns). -/
def insertMessage (st : Store) (uid : Option Nat) (mtype : String)
    (mtext : Option String) (ts : Nat) : Store :=
  { st with
      messages := st.messages ++
        [{ id := st.nextMessageId, user_id := uid, message_type := mtype,
           message_text := mtext, timestamp := ts }],
      nextMessageId := st.nextMessageId + 1 }

/-- `db.session.add(new_comment); db.session.commit()`: the commit enforces
the `unique=True` constraint on `Comment.comment_id`. -/
def insertComment (st : Store) (c : CommentRow) : Except String Store :=
  if st.comments.all (fun r => r.comment_id != c.comment_id) then
    .ok { st with comments := st.comments ++ [c], nextCommentId := st.nextCommentId + 1 }
  else
    .error "IntegrityError: comment"

/-- One configured Instagram account (page id + access token pair from the
sequential environment entries). -/
structure Account where
  page_id : String
  page_access_token : String

/-- One entry of `reel_keywords.json` (either key may be absent). -/
structure RuleCfg where
  keywords : Option (List String)
  private_reply_message : Option String

/-- Python dict truthiness of a rule entry (an empty mapping is falsy). -/
def cfgTruthy (c : RuleCfg) : Bool :=
  c.keywords.isSome || c.private_reply_message.isSome

/-- Truthiness of `matched_reel_config` (which may also be Python `None`). -/
def optCfgTruthy : Option RuleCfg → Bool
  | none => false
  | some c => cfgTruthy c

/-- `matched_reel_config.get("private_reply_message")` under an optional match. -/
def cfgTemplate : Option RuleCfg → Option String
  | none => none
  | some c => c.private_reply_message

/-- `REEL_KEYWORDS.get(k)` over the rule table. -/
def lookupCfg (tbl : List (String × RuleCfg)) (k : String) : Option RuleCfg :=
  (tbl.find? (fun e => e.1 == k)).map (fun e => e.2)

/-- The keyword scan over the `DEFAULT_KEYWORDS` entry (lines 450-453): the
first keyword whose lowercased form occurs in the lowercased comment text. -/
def defaultScanHit (ks : List String) (lowerText : String) : Option String :=
  ks.find? (fun k => containsStr lowerText (lowerStr k))

/-- Rule resolution (lines 444-453): the value held by `matched_reel_config`
when control reaches the dispatch condition at line 455.  A truthy
media-specific entry short-circuits the default scan; otherwise the default
entry is taken exactly when some default keyword matches, and the (falsy)
media lookup result is kept when none does. -/
def resolveRule (tbl : List (String × RuleCfg)) (media_id lowerText : String) :
    Option RuleCfg :=
  let m := lookupCfg tbl media_id
  if optCfgTruthy m then m
  else
    let d := (lookupCfg tbl "DEFAULT_KEYWORDS").getD
      { keywords := none, private_reply_message := none }
    match defaultScanHit (d.keywords.getD []) lowerText with
    | some _ => some d
    | none => m

/-- The follower gate of the source (lines 215-250): the reference
implementation is a stub that always returns `true`. -/
def check_if_user_follows_page (_instagram_user_id _page_access_token : String) : Bool :=
  true

/-- Process-wide configuration and ambient effects: the account registry, the
keyword table, the clock backing `datetime.utcnow` column defaults, whether
outbound Graph API calls succeed, and the follower gate the handler calls
(instantiated with `check_if_user_follows_page` for reference behavior). -/
structure Env where
  accounts : List Account
  reel_keywords : List (String × RuleCfg)
  now : Nat
  httpOk : Bool
  gate : String → String → Bool

/-- A sub-dictionary holding at most an `id` key. -/
structure IdRef where
  id : Option String

/-- The `user` sub-dictionary of a mention value. -/
structure UserRef where
  id : Option String
  username : Option String

/-- The `message` sub-dictionary of a messaging event. -/
structure MsgContent where
  text : Option String
  is_echo : Option Bool

/-- The `postback` sub-dictionary of a messaging event. -/
structure PostbackRef where
  payload : Option String

/-- One element of `entry["messaging"]`. -/
structure MessagingEvent where
  sender : Option IdRef
  recipient : Option IdRef
  message : Option MsgContent
  postback : Option PostbackRef
  timestamp : Option Nat

/-- The `item` sub-dictionary of a mention value. -/
structure ItemRef where
  id : Option String
  media_type : Option String

/-- The `value` dictionary of a change.  The `media` and `from` sub-objects
are flattened through their only accesses (`media.get("id")`,
`media.get("media_type")`, `from.get("id")`, `from.get("username")`). -/
structure ChangeValue where
  page_id : Option String
  id : Option String
  text : Option String
  media_id : Option String
  media_type : Option String
  from_id : Option String
  from_username : Option String
  created_time : Option Nat
  item : Option ItemRef
  user : Option UserRef

/-- One element of `entry["changes"]`. -/
structure Change where
  field : Option String
  value : Option ChangeValue

/-- One element of the webhook body's `entry` array. -/
structure Entry where
  id : Option String
  messaging : Option (List MessagingEvent)
  changes : Option (List Change)

/-- An outbound Graph API call attempt. -/
inductive Outbound where
  | dm (recipient_psid text page_id : String)
  | privateReply (comment_id text : String)

/-- `send_instagram_message` (lines 136-176): posts a DM; on HTTP success it
logs an `outbound_dm` row for the user looked up by PSID at send time (skipped
with a warning when that user does not exist); HTTP failure is swallowed. -/
def send_instagram_message (env : Env)
    (recipient_psid message_text page_id_for_sending : String)
    (s : Store × List Outbound) : Store × List Outbound :=
  let sent := s.2 ++ [Outbound.dm recipient_psid message_text page_id_for_sending]
  if env.httpOk then
    match findUserByPsid s.1 recipient_psid with
    | some u => (insertMessage s.1 (some u.id) "outbound_dm" (some message_text) env.now, sent)
    | none => (s.1, sent)
  else (s.1, sent)

/-- `send_instagram_private_reply_to_comment` (lines 178-213): posts a private
reply; on HTTP success it logs a `private_reply_comment` row with no user
link; HTTP failure is swallowed. -/
def send_instagram_private_reply_to_comment (env : Env)
    (comment_id message_text : String)
    (s : Store × List Outbound) : Store × List Outbound :=
  let sent := s.2 ++ [Outbound.privateReply comment_id message_text]
  if env.httpOk then
    (insertMessage s.1 none "private_reply_comment" (some message_text) env.now, sent)
  else (s.1, sent)

/-- The DM keyword responder (lines 355-362). -/
def computeDmReply (lowerText : String) (username : Option String) : String :=
  if containsStr lowerText "hello" || containsStr lowerText "hi" then
    "Hi there, " ++ orElseStr username "friend" ++ "! How can I help you today?"
  else if containsStr lowerText "help" then
    "I can help with common questions. Try asking about \x27products\x27 or \x27support\x27."
  else if containsStr lowerText "products" then
    "We offer a range of exciting products! Visit our website to learn more: example.com"
  else
    "I\x27m a bot! I\x27m still learning. Try \x27hello\x27, \x27help\x27, or \x27products\x27."

/-- The fixed follow-request private reply (line 468), an f-string over the
commenter's username. -/
def non_follower_dm_message (sender_username : Option String) : String :=
  "Hi @" ++ pyStrOfOpt sender_username ++
    ", thanks for your comment! To get the link, please follow our page first. Once you follow, comment again or send us a DM, and we\x27ll send it right over!"

/-- Inbound-DM handling (lines 330-365): find-or-create the user by PSID
(update `last_interaction_at` when found), log the inbound message, compute
and send the keyword reply. -/
def handleInboundDm (env : Env) (recipient_page_id sender_psid message_text : String)
    (ts : Nat) (s : Store × List Outbound) : Except String (Store × List Outbound) := do
  let (st1, user) ←
    match findUserByPsid s.1 sender_psid with
    | none =>
        let u : UserRow :=
          { id := s.1.nextUserId, psid := some sender_psid, instagram_id := none,
            instagram_username := none, created_at := ts, last_interaction_at := env.now }
        (insertUser s.1 u).map (fun st => (st, u))
    | some u =>
        .ok (updateUserRow s.1 u.id (fun r => { r with last_interaction_at := ts }),
             { u with last_interaction_at := ts })
  let st2 := insertMessage st1 (some user.id) "inbound_dm" (some message_text) ts
  let response_message := computeDmReply (lowerStr message_text) user.instagram_username
  .ok (send_instagram_message env sender_psid response_message recipient_page_id (st2, s.2))

/-- Postback handling (lines 373-392): update `last_interaction_at` only when
the user already exists (no creation), log the postback, send the echo. -/
def handlePostback (env : Env) (recipient_page_id sender_psid payload : String)
    (ts : Nat) (s : Store × List Outbound) : Store × List Outbound :=
  let (st1, uid) :=
    match findUserByPsid s.1 sender_psid with
    | some u => (updateUserRow s.1 u.id (fun r => { r with last_interaction_at := ts }), some u.id)
    | none => (s.1, none)
  let st2 := insertMessage st1 uid "inbound_postback" (some ("POSTBACK: " ++ payload)) ts
  send_instagram_message env sender_psid
    ("You chose: " ++ payload ++ ". How else can I assist?") recipient_page_id (st2, s.2)

/-- The `elif messaging_event.get("postback")` branch (lines 368-392): the
`["payload"]` and `["timestamp"]` accesses raise when absent. -/
def processPostbackBranch (env : Env) (recipient_page_id sender_psid : String)
    (ev : MessagingEvent) (s : Store × List Outbound) :
    Except String (Store × List Outbound) :=
  match ev.postback with
  | some pb => do
      let payload ← pyGet pb.payload "KeyError: payload"
      let tms ← pyGet ev.timestamp "KeyError: timestamp"
      .ok (handlePostback env recipient_page_id sender_psid payload (tms / 1000) s)
  | none => .ok s

/-- One messaging sub-event (lines 321-392): the `["sender"]["id"]` access
raises when absent; then the inbound-DM branch (truthy non-echo text), else
the postback branch, else nothing. -/
def processMessagingEvent (env : Env) (recipient_page_id : String)
    (ev : MessagingEvent) (s : Store × List Outbound) :
    Except String (Store × List Outbound) := do
  let sref ← pyGet ev.sender "KeyError: sender"
  let sender_psid ← pyGet sref.id "KeyError: id"
  match ev.message with
  | some mc =>
      match mc.text with
      | some text =>
          if text != "" && mc.is_echo != some true then do
            let tms ← pyGet ev.timestamp "KeyError: timestamp"
            handleInboundDm env recipient_page_id sender_psid text (tms / 1000) s
          else
            processPostbackBranch env recipient_page_id sender_psid ev s
      | none => processPostbackBranch env recipient_page_id sender_psid ev s
  | none => processPostbackBranch env recipient_page_id sender_psid ev s

/-- The conditional DM automation for a stored comment (lines 441-472):
resolve the `matched_reel_config`; when it is truthy with a truthy
`private_reply_message`, run the follower gate and dispatch either the
rendered template (`str.replace` raises a `TypeError` when the username is
`None`) or the fixed follow-request message. -/
def commentAutomation (env : Env) (acct : Account)
    (comment_id comment_text sender_ig_id media_id : String)
    (from_username : Option String) (s : Store × List Outbound) :
    Except String (Store × List Outbound) :=
  let comment_text_lower := lowerStr comment_text
  let matched := resolveRule env.reel_keywords media_id comment_text_lower
  if optCfgTruthy matched && truthyStr (cfgTemplate matched) then
    if env.gate sender_ig_id acct.page_access_token then
      match pyGet (cfgTemplate matched) "KeyError: private_reply_message" with
      | .error e => .error e
      | .ok dm =>
          match from_username with
          | some uname =>
              .ok (send_instagram_private_reply_to_comment env comment_id
                    (pyReplace dm usernamePat uname) s)
          | none => .error "TypeError: replace"
    else
      .ok (send_instagram_private_reply_to_comment env comment_id
            (non_follower_dm_message from_username) s)
  else
    .ok s

/-- The comments branch (lines 401-472).  The comment timestamp is computed
from `value.get("created_time")` at line 408, before the required-field guard
at line 410, so an absent `created_time` raises a `TypeError`.  After the
guard: find-or-create the user by Instagram id (refreshing the username),
commit the `Comment` row, then run `commentAutomation`. -/
def processComment (env : Env) (acct : Account) (v : ChangeValue)
    (s : Store × List Outbound) : Except String (Store × List Outbound) := do
  let ctime ← pyGet v.created_time "TypeError: created_time"
  let comment_timestamp := ctime / 1000
  match v.id, v.text, v.from_id, v.media_id with
  | some comment_id, some comment_text, some sender_ig_id, some media_id =>
      if comment_id != "" && comment_text != "" && sender_ig_id != "" && media_id != "" then do
        let (st1, user_id) ←
          match findUserByIgId s.1 sender_ig_id with
          | none =>
              let u : UserRow :=
                { id := s.1.nextUserId, psid := none, instagram_id := some sender_ig_id,
                  instagram_username := v.from_username, created_at := comment_timestamp,
                  last_interaction_at := env.now }
              (insertUser s.1 u).map (fun st => (st, u.id))
          | some u =>
              .ok (updateUserRow s.1 u.id (fun r =>
                      { r with last_interaction_at := comment_timestamp,
                               instagram_username :=
                                 if r.instagram_username != v.from_username then v.from_username
                                 else r.instagram_username }),
                   u.id)
        let st2 ← insertComment st1
          { id := st1.nextCommentId, user_id := some user_id, comment_id := comment_id,
            media_id := media_id, comment_text := some comment_text,
            timestamp := comment_timestamp }
        commentAutomation env acct comment_id comment_text sender_ig_id media_id
          v.from_username (st2, s.2)
      else
        .ok s
  | _, _, _, _ => .ok s

/-- The mentions branch (lines 475-489): detection logging only, but with
raising accesses for the story and comment mention shapes. -/
def processMention (v : ChangeValue) (s : Store × List Outbound) :
    Except String (Store × List Outbound) :=
  match v.item with
  | some item =>
      if item.media_type == some "STORY" then do
        let _sid ← pyGet item.id "KeyError: id"
        let uref ← pyGet v.user "KeyError: user"
        let _uid ← pyGet uref.id "KeyError: id"
        let _un ← pyGet uref.username "KeyError: username"
        .ok s
      else if item.media_type == some "IMAGE" || item.media_type == some "VIDEO" then do
        let uref ← pyGet v.user "KeyError: user"
        let _uid ← pyGet uref.id "KeyError: id"
        let _un ← pyGet uref.username "KeyError: username"
        .ok s
      else .ok s
  | none => .ok s

/-- One element of `entry["changes"]` (lines 396-489). -/
def processChange (env : Env) (acct : Account) (ch : Change)
    (s : Store × List Outbound) : Except String (Store × List Outbound) :=
  match ch.value with
  | none => .ok s
  | some v =>
      if ch.field == some "comments" then processComment env acct v s
      else if ch.field == some "mentions" then processMention v s
      else .ok s

/-- Sequential processing of a changes array. -/
def processChanges (env : Env) (acct : Account) :
    List Change → Store × List Outbound → Except String (Store × List Outbound)
  | [], s => .ok s
  | ch :: rest, s => do
      let s1 ← processChange env acct ch s
      processChanges env acct rest s1

/-- Sequential processing of a messaging array. -/
def processMessagingEvents (env : Env) (recipient_page_id : String) :
    List MessagingEvent → Store × List Outbound → Except String (Store × List Outbound)
  | [], s => .ok s
  | ev :: rest, s => do
      let s1 ← processMessagingEvent env recipient_page_id ev s
      processMessagingEvents env recipient_page_id rest s1

/-- Determining the recipient page id of one entry (lines 291-299): a truthy
`entry["id"]`, else the first messaging event's `["recipient"]["id"]` (which
raises when the truthy recipient dict lacks `id`), else the first change's
`value.get("page_id")`; `none` when nothing resolves. -/
def entryPageId (e : Entry) : Except String (Option String) :=
  if truthyStr e.id then .ok e.id
  else if truthyList e.messaging then
    match e.messaging with
    | some (m0 :: _) =>
        match m0.recipient with
        | some r => (pyGet r.id "KeyError: id").map some
        | none => .ok none
    | _ => .ok none
  else if truthyList e.changes then
    match e.changes with
    | some (c0 :: _) =>
        match c0.value with
        | some v => if truthyStr v.page_id then .ok v.page_id else .ok none
        | none => .ok none
    | _ => .ok none
  else .ok none

/-- One webhook entry (lines 288-489): resolve the page id, find the matching
account configuration, then run the messaging branch or the changes branch.
Unroutable entries are skipped (`continue`). -/
def processEntry (env : Env) (e : Entry) (s : Store × List Outbound) :
    Except String (Store × List Outbound) := do
  let pid? ← entryPageId e
  match pid? with
  | none => .ok s
  | some pid =>
      match env.accounts.find? (fun a => a.page_id == pid) with
      | none => .ok s
      | some acct =>
          if truthyList e.messaging then
            processMessagingEvents env pid (e.messaging.getD []) s
          else if truthyList e.changes then
            processChanges env acct (e.changes.getD []) s
          else .ok s

/-- Sequential processing of the entry array. -/
def processEntries (env : Env) :
    List Entry → Store × List Outbound → Except String (Store × List Outbound)
  | [], s => .ok s
  | e :: rest, s => do
      let s1 ← processEntry env e s
      processEntries env rest s1

/-- `POST /webhook` (lines 275-492).  The input is `data.get("entry")` with
Python falsiness collapsed to `none`; the result is the HTTP status (200
carries the `status: ok` JSON body, 400 the error body), the final store and
the outbound calls made; an uncaught Python exception during processing is an
`.error` (Flask turns it into a 500 response). -/
def handle_webhook (env : Env) (st : Store) (entryField : Option (List Entry)) :
    Except String (Nat × Store × List Outbound) :=
  match entryField with
  | none => .ok (400, st, [])
  | some [] => .ok (400, st, [])
  | some es => (processEntries env es (st, [])).map (fun s => (200, s.1, s.2))

/-- `GET /webhook` (lines 254-273), returning `(body, status)`.  The
configured `VERIFY_TOKEN` may be unset (`none`).  `not all([mode, token,
challenge])` treats an empty parameter exactly like an absent one. -/
def verify_webhook (verifyTokenCfg : Option String)
    (mode token challenge : Option String) : String × Nat :=
  match mode, token, challenge with
  | some m, some t, some c =>
      if m == "" || t == "" || c == "" then ("Missing parameters", 400)
      else if m == "subscribe" && some t == verifyTokenCfg then (c, 200)
      else ("Verification token mismatch", 403)
  | _, _, _ => ("Missing parameters", 400)

/-- The outbound calls of a handler result; `none` when it raised. -/
def sentPart (r : Except String (Store × List Outbound)) : Option (List Outbound) :=
  match r with
  | .ok s => some s.2
  | .error _ => none

/-- Number of `User` rows carrying the given PSID. -/
def countUsersPsid (st : Store) (p : String) : Nat :=
  st.users.countP (fun u => u.psid == some p)

/-- Number of inbound-DM `Message` rows linked to the given user id. -/
def inboundDmCountFor (st : Store) (uid : Nat) : Nat :=
  st.messages.countP (fun m => m.message_type == "inbound_dm" && m.user_id == some uid)

/-! ### Concrete data used by witnesses and counterexamples -/

/-- A one-account registry. -/
def acctW : Account := { page_id := "P1", page_access_token := "T1" }

/-- A keyword table: `M1` is a truthy entry with no reply template, `M2` has a
template but no keywords, and there is a default entry. -/
def tblW : List (String × RuleCfg) :=
  [("M1", { keywords := some ["promo"], private_reply_message := none }),
   ("M2", { keywords := none, private_reply_message := some "Link: {username}" }),
   ("DEFAULT_KEYWORDS", { keywords := some ["link", "info"],
                          private_reply_message := some "Default {username}" })]

/-- The default entry of `tblW`. -/
def dW : RuleCfg :=
  { keywords := some ["link", "info"], private_reply_message := some "Default {username}" }

/-- Reference environment: the stub follower gate, successful outbound HTTP. -/
def envW : Env :=
  { accounts := [acctW], reel_keywords := tblW, now := 5, httpOk := true,
    gate := check_if_user_follows_page }

/-- Like `envW` but with a follower gate that reports non-followers. -/
def envNoFollow : Env :=
  { accounts := [acctW], reel_keywords := tblW, now := 5, httpOk := true,
    gate := fun _ _ => false }

/-- A well-formed comment change value on media `M1`. -/
def vW : ChangeValue :=
  { page_id := some "P1", id := some "c1", text := some "send me the LINK please",
    media_id := some "M1", media_type := some "REEL", from_id := some "u9",
    from_username := some "alice", created_time := some 1000, item := none, user := none }

/-- Like `vW` but on media `M2`, whose rule has a non-empty template. -/
def vM2 : ChangeValue := { vW with media_id := some "M2" }

/-- Like `vM2` but with the commenter's `username` field absent. -/
def vNoName : ChangeValue := { vM2 with from_username := none }

/-- Like `vW` but with `media.id` absent. -/
def vNoMedia : ChangeValue := { vW with media_id := none }

/-- Like `vW` but with both `media.id` and `created_time` absent. -/
def vNoCt : ChangeValue := { vW with media_id := none, created_time := none }

/-- A persisted comment row with comment id `c1`. -/
def rowDup : CommentRow :=
  { id := 1, user_id := none, comment_id := "c1", media_id := "M7",
    comment_text := some "hi", timestamp := 1 }

/-- A store already holding a comment row with comment id `c1`. -/
def stDup : Store :=
  { users := [], messages := [], comments := [rowDup],
    nextUserId := 1, nextMessageId := 1, nextCommentId := 2 }

/-- An entry that is routable to `acctW` but whose messaging event lacks the
`sender` key, so processing it raises a `KeyError`. -/
def entryBadSender : Entry :=
  { id := some "P1",
    messaging := some [{ sender := none, recipient := none, message := none,
                         postback := none, timestamp := none }],
    changes := none }

/-! ### Helper lemmas about the embedded operations -/

theorem insertMessage_users (st : Store) (uid : Option Nat) (mtype : String)
    (mtext : Option String) (ts : Nat) :
    (insertMessage st uid mtype mtext ts).users = st.users := rfl

theorem insertMessage_comments (st : Store) (uid : Option Nat) (mtype : String)
    (mtext : Option String) (ts : Nat) :
    (insertMessage st uid mtype mtext ts).comments = st.comments := rfl

theorem updateUserRow_messages (st : Store) (uid : Nat) (f : UserRow → UserRow) :
    (updateUserRow st uid f).messages = st.messages := rfl

theorem updateUserRow_comments (st : Store) (uid : Nat) (f : UserRow → UserRow) :
    (updateUserRow st uid f).comments = st.comments := rfl

theorem sendPR_snd (env : Env) (cid txt : String) (s : Store × List Outbound) :
    (send_instagram_private_reply_to_comment env cid txt s).2 =
      s.2 ++ [Outbound.privateReply cid txt] := by
  unfold send_instagram_private_reply_to_comment
  cases h : env.httpOk <;> simp [h]

theorem sendPR_eta (env : Env) (cid txt : String) (s : Store × List Outbound) :
    send_instagram_private_reply_to_comment env cid txt s =
      ((send_instagram_private_reply_to_comment env cid txt s).1,
        s.2 ++ [Outbound.privateReply cid txt]) := by
  rw [← sendPR_snd env cid txt s]

theorem sendDM_users (env : Env) (a b c : String) (s : Store × List Outbound) :
    (send_instagram_message env a b c s).1.users = s.1.users := by
  unfold send_instagram_message
  cases h : env.httpOk <;> cases hf : findUserByPsid s.1 a <;>
    simp [h, hf, insertMessage_users]

theorem sendDM_inbound (env : Env) (a b c : String) (s : Store × List Outbound) (uid : Nat) :
    inboundDmCountFor (send_instagram_message env a b c s).1 uid =
      inboundDmCountFor s.1 uid := by
  unfold send_instagram_message inboundDmCountFor
  cases h : env.httpOk <;> cases hf : findUserByPsid s.1 a <;>
    simp [h, hf, insertMessage, List.countP_append,
      show (("outbound_dm" : String) == "inbound_dm") = false from rfl]

theorem find?_append_of_none {α : Type} (p : α → Bool) (l₁ l₂ : List α)
    (h : l₁.find? p = none) : (l₁ ++ l₂).find? p = l₂.find? p := by
  rw [List.find?_append, h]
  simp

theorem find?_first {α : Type} (p : α → Bool) :
    ∀ (l : List α) (k : α), l.find? p = some k →
      p k = true ∧ ∃ l₁ l₂, l = l₁ ++ k :: l₂ ∧ ∀ x ∈ l₁, p x = false := by
  intro l
  induction l with
  | nil => intro k h; simp at h
  | cons a t ih =>
      intro k h
      cases hpa : p a with
      | true =>
          rw [List.find?_cons_of_pos _ hpa] at h
          obtain rfl : a = k := by injection h
          exact ⟨hpa, [], t, rfl, by intro x hx; simp at hx⟩
      | false =>
          rw [List.find?_cons_of_neg _ (by simp [hpa])] at h
          obtain ⟨hk, l₁, l₂, heq, hall⟩ := ih k h
          refine ⟨hk, a :: l₁, l₂, by rw [heq]; rfl, ?_⟩
          intro x hx
          rcases List.mem_cons.mp hx with rfl | hx'
          · exact hpa
          · exact hall x hx'

theorem replaceFuel_of_not_contains (pat repl : List Char) :
    ∀ (fuel : Nat) (hay : List Char), containsList pat hay = false →
      replaceFuel pat repl fuel hay = hay := by
  intro fuel
  induction fuel with
  | zero => intro hay _; rfl
  | succ n ih =>
      intro hay h
      cases hay with
      | nil => rfl
      | cons c rest =>
          rw [containsList] at h
          rw [Bool.or_eq_false_iff] at h
          have hc : (!pat.isEmpty && startsWithList pat (c :: rest)) = false := by
            rw [h.1]; simp
          simp only [replaceFuel, hc, Bool.false_eq_true, if_false]
          rw [ih rest h.2]

theorem replaceList_of_not_contains (pat repl : List Char) :
    ∀ hay, containsList pat hay = false → replaceList pat repl hay = hay := by
  intro hay h
  exact replaceFuel_of_not_contains pat repl hay.length hay h

theorem pyReplace_id (s pat r : String) (h : containsStr s pat = false) :
    pyReplace s pat r = s := by
  unfold pyReplace
  unfold containsStr at h
  rw [replaceList_of_not_contains _ _ _ h]

theorem igFree_of_find_none (st : Store) (g : String)
    (h : findUserByIgId st g = none) : igFree st (some g) = true := by
  unfold findUserByIgId at h
  unfold igFree
  rw [List.all_eq_true]
  intro u hu
  have hne := List.find?_eq_none.mp h u hu
  simp only [bne_iff_ne, ne_eq]
  simpa using hne

theorem psidFree_of_find_none (st : Store) (p : String)
    (h : findUserByPsid st p = none) : psidFree st (some p) = true := by
  unfold findUserByPsid at h
  unfold psidFree
  rw [List.all_eq_true]
  intro u hu
  have hne := List.find?_eq_none.mp h u hu
  simp only [bne_iff_ne, ne_eq]
  simpa using hne

theorem comments_all_false_of_dup (st : Store) (cid : String) (r : CommentRow)
    (hr : r ∈ st.comments) (heq : r.comment_id = cid) :
    (st.comments.all (fun x => x.comment_id != cid)) = false := by
  cases hall : st.comments.all (fun x => x.comment_id != cid) with
  | false => rfl
  | true =>
      exfalso
      have := List.all_eq_true.mp hall r hr
      rw [heq] at this
      simp at this

theorem insertComment_ok (st : Store) (c : CommentRow)
    (h : st.comments.all (fun r => r.comment_id != c.comment_id) = true) :
    insertComment st c =
      .ok { st with comments := st.comments ++ [c], nextCommentId := st.nextCommentId + 1 } := by
  simp [insertComment, h]

theorem processComment_run (env : Env) (acct : Account) (v : ChangeValue)
    (st : Store) (sent : List Outbound) (ct : Nat) (cid ctext ig mid : String)
    (hct : v.created_time = some ct) (hid : v.id = some cid) (htext : v.text = some ctext)
    (hfrom : v.from_id = some ig) (hmid : v.media_id = some mid)
    (h1 : cid ≠ "") (h2 : ctext ≠ "") (h3 : ig ≠ "") (h4 : mid ≠ "") :
    ∃ (st1 : Store) (uid : Nat), st1.comments = st.comments ∧
      processComment env acct v (st, sent) =
        match insertComment st1
            { id := st1.nextCommentId, user_id := some uid, comment_id := cid,
              media_id := mid, comment_text := some ctext, timestamp := ct / 1000 } with
        | .error e => .error e
        | .ok st2 => commentAutomation env acct cid ctext ig mid v.from_username (st2, sent) := by
  have e1 : (cid != "") = true := by simpa using h1
  have e2 : (ctext != "") = true := by simpa using h2
  have e3 : (ig != "") = true := by simpa using h3
  have e4 : (mid != "") = true := by simpa using h4
  unfold processComment
  simp only [hct, hid, htext, hfrom, hmid, pyGet, Bind.bind, Except.bind,
    e1, e2, e3, e4, Bool.and_self, Bool.true_and, if_true]
  cases hfind : findUserByIgId (st, sent).1 ig with
  | some u =>
      simp only [hfind]
      refine ⟨updateUserRow st u.id (fun r =>
        { r with last_interaction_at := ct / 1000,
                 instagram_username :=
                   if r.instagram_username != v.from_username then v.from_username
                   else r.instagram_username }), u.id, rfl, ?_⟩
      cases hic : insertComment (updateUserRow st u.id (fun r =>
        { r with last_interaction_at := ct / 1000,
                 instagram_username :=
                   if r.instagram_username != v.from_username then v.from_username
                   else r.instagram_username }))
          { id := _, user_id := some u.id, comment_id := cid,
            media_id := mid, comment_text := some ctext, timestamp := ct / 1000 } <;>
        simp [hic]
  | none =>
      have hig : igFree st (some ig) = true := igFree_of_find_none st ig hfind
      simp only [hfind, insertUser, psidFree, hig, Bool.and_true, Bool.true_and,
        Except.map, if_true]
      refine ⟨{ st with
          users := st.users ++
            [{ id := st.nextUserId, psid := none, instagram_id := some ig,
               instagram_username := v.from_username, created_at := ct / 1000,
               last_interaction_at := env.now }],
          nextUserId := st.nextUserId + 1 }, st.nextUserId, rfl, ?_⟩
      cases hic : insertComment { st with
          users := st.users ++
            [{ id := st.nextUserId, psid := none, instagram_id := some ig,
               instagram_username := v.from_username, created_at := ct / 1000,
               last_interaction_at := env.now }],
          nextUserId := st.nextUserId + 1 }
          { id := _, user_id := some st.nextUserId, comment_id := cid,
            media_id := mid, comment_text := some ctext, timestamp := ct / 1000 } <;>
        simp [hic]

theorem handleInboundDm_fresh (env : Env) (pid p t : String) (ts : Nat)
    (st : Store) (sent : List Outbound) (h : findUserByPsid st p = none) :
    ∃ (st' : Store) (sent' : List Outbound),
      handleInboundDm env pid p t ts (st, sent) = .ok (st', sent') ∧
      (∃ u : UserRow, u.psid = some p ∧ u.id = st.nextUserId ∧
        st'.users = st.users ++ [u]) ∧
      ∀ uid, inboundDmCountFor st' uid =
        inboundDmCountFor st uid + (if st.nextUserId = uid then 1 else 0) := by
  have hpf : psidFree st (some p) = true := psidFree_of_find_none st p h
  unfold handleInboundDm
  simp only [h, insertUser, igFree, hpf, Bool.and_true, Bool.true_and, Except.map,
    Bind.bind, Except.bind, if_true]
  refine ⟨(send_instagram_message env p _ pid (_, sent)).1,
          (send_instagram_message env p _ pid (_, sent)).2, rfl, ?_, ?_⟩
  · refine ⟨⟨st.nextUserId, some p, none, none, ts, env.now⟩, rfl, rfl, ?_⟩
    rw [sendDM_users]
    rfl
  · intro uid
    rw [sendDM_inbound]
    unfold inboundDmCountFor insertMessage
    simp [List.countP_append, List.countP_cons,
      show (("inbound_dm" : String) == "inbound_dm") = true from rfl]

theorem handleInboundDm_existing (env : Env) (pid p t : String) (ts : Nat)
    (st : Store) (sent : List Outbound) (u : UserRow)
    (h : findUserByPsid st p = some u) :
    ∃ (st' : Store) (sent' : List Outbound),
      handleInboundDm env pid p t ts (st, sent) = .ok (st', sent') ∧
      st'.users = st.users.map
        (fun r => if r.id == u.id then { r with last_interaction_at := ts } else r) ∧
      ∀ uid, inboundDmCountFor st' uid =
        inboundDmCountFor st uid + (if u.id = uid then 1 else 0) := by
  unfold handleInboundDm
  simp only [h, Bind.bind, Except.bind]
  refine ⟨(send_instagram_message env p _ pid (_, sent)).1,
          (send_instagram_message env p _ pid (_, sent)).2, rfl, ?_, ?_⟩
  · rw [sendDM_users]
    rfl
  · intro uid
    rw [sendDM_inbound]
    unfold inboundDmCountFor insertMessage
    simp [List.countP_append, List.countP_cons, updateUserRow_messages,
      show (("inbound_dm" : String) == "inbound_dm") = true from rfl]

theorem resolveRule_media {tbl : List (String × RuleCfg)} {mid : String} (lt : String)
    {cfg : RuleCfg}
    (hlk : lookupCfg tbl mid = some cfg) (htr : cfgTruthy cfg = true) :
    resolveRule tbl mid lt = some cfg := by
  unfold resolveRule
  rw [hlk]
  simp [optCfgTruthy, htr]

theorem resolveRule_default {tbl : List (String × RuleCfg)} {mid lt : String} {d : RuleCfg}
    (hm : optCfgTruthy (lookupCfg tbl mid) = false)
    (hd : lookupCfg tbl "DEFAULT_KEYWORDS" = some d)
    {k : String} (hk : k ∈ d.keywords.getD []) (hpk : containsStr lt (lowerStr k) = true) :
    resolveRule tbl mid lt = some d := by
  have hsome : (defaultScanHit (d.keywords.getD []) lt).isSome := by
    unfold defaultScanHit
    exact List.find?_isSome.mpr ⟨k, hk, hpk⟩
  obtain ⟨k', hk'⟩ := Option.isSome_iff_exists.mp hsome
  unfold resolveRule
  simp only [hm, Bool.false_eq_true, if_false, hd, Option.getD_some, hk']

theorem commentAutomation_template {env : Env} {acct : Account}
    {cid ctext ig mid : String} {uname : Option String} {s : Store × List Outbound}
    {cfg : RuleCfg} {tpl : String}
    (hres : resolveRule env.reel_keywords mid (lowerStr ctext) = some cfg)
    (htpl : cfg.private_reply_message = some tpl) (hne : tpl ≠ "") :
    commentAutomation env acct cid ctext ig mid uname s =
      if env.gate ig acct.page_access_token then
        match uname with
        | some u =>
            .ok (send_instagram_private_reply_to_comment env cid
                  (pyReplace tpl usernamePat u) s)
        | none => .error "TypeError: replace"
      else
        .ok (send_instagram_private_reply_to_comment env cid
              (non_follower_dm_message uname) s) := by
  have e : (tpl != "") = true := by simpa using hne
  unfold commentAutomation
  simp only [hres, optCfgTruthy, cfgTruthy, cfgTemplate, htpl, Option.isSome_some,
    Bool.or_true, truthyStr, e, Bool.and_self, if_true, pyGet]

theorem commentAutomation_blocked {env : Env} {acct : Account}
    {cid ctext ig mid : String} {uname : Option String} {s : Store × List Outbound}
    {cfg : RuleCfg}
    (hres : resolveRule env.reel_keywords mid (lowerStr ctext) = some cfg)
    (htpl : truthyStr cfg.private_reply_message = false) :
    commentAutomation env acct cid ctext ig mid uname s = .ok s := by
  unfold commentAutomation
  simp only [hres, cfgTemplate, htpl, Bool.and_false, Bool.false_eq_true, if_false]

/-! ### Claims -/

/-- Claim C4 (confirmed): with no media-specific entry for the media id, the
`DEFAULT_KEYWORDS` rule's keyword list is scanned in order; the rule is
selected exactly when some keyword's lowercased form is a substring of the
lowercased comment text, and the scan hit is the first such keyword in list
order. -/
theorem claim_C4 (tbl : List (String × RuleCfg)) (media_id text : String) (d : RuleCfg)
    (hmedia : lookupCfg tbl media_id = none)
    (hdef : lookupCfg tbl "DEFAULT_KEYWORDS" = some d) :
    (resolveRule tbl media_id (lowerStr text) = some d ↔
      ∃ k ∈ d.keywords.getD [], containsStr (lowerStr text) (lowerStr k) = true) ∧
    (∀ k, defaultScanHit (d.keywords.getD []) (lowerStr text) = some k →
      containsStr (lowerStr text) (lowerStr k) = true ∧
      ∃ l₁ l₂, d.keywords.getD [] = l₁ ++ k :: l₂ ∧
        ∀ x ∈ l₁, containsStr (lowerStr text) (lowerStr x) = false) := by
  constructor
  · unfold resolveRule
    rw [hmedia, hdef]
    simp only [optCfgTruthy, Option.getD_some, Bool.false_eq_true, if_false]
    constructor
    · intro h
      cases hscan : defaultScanHit (d.keywords.getD []) (lowerStr text) with
      | none => rw [hscan] at h; exact absurd h (by simp)
      | some k =>
          unfold defaultScanHit at hscan
          obtain ⟨hpk, -⟩ := find?_first _ _ _ hscan
          exact ⟨k, List.mem_of_find?_eq_some hscan, hpk⟩
    · rintro ⟨k, hk, hpk⟩
      have hsome : (defaultScanHit (d.keywords.getD []) (lowerStr text)).isSome := by
        unfold defaultScanHit
        exact List.find?_isSome.mpr ⟨k, hk, hpk⟩
      obtain ⟨k', hk'⟩ := Option.isSome_iff_exists.mp hsome
      rw [hk']
  · intro k hscan
    unfold defaultScanHit at hscan
    exact find?_first _ _ _ hscan

/-- Witness for C4: keywords `["link", "info"]` with comment text
`"send me the LINK please"` select the default rule (on `"link"`). -/
theorem claim_C4_witness :
    resolveRule tblW "M9" (lowerStr "send me the LINK please") = some dW :=
  (claim_C4 tblW "M9" "send me the LINK please" dW rfl rfl).1.mpr
    ⟨"link", by decide, by decide⟩

/-- Claim C5 (counterexample): all three verification parameters are present,
the mode is `subscribe` and the token matches the configured secret, but the
challenge parameter is the empty string: the claim requires a 200 response
carrying the challenge, while the code's `not all([...])` treats the empty
parameter as missing and returns 400. -/
theorem claim_C5_counterexample :
    verify_webhook (some "sek") (some "subscribe") (some "sek") (some "") =
      ("Missing parameters", 400) := rfl

/-- Claim C5 (amended): a verification parameter that is absent or empty
yields 400; when all three are present and non-empty, mode `subscribe` with a
matching token yields 200 with the challenge as body, and any mismatch yields
403. -/
theorem claim_C5_amended (vt : Option String) (mode token challenge : Option String) :
    ((mode = none ∨ token = none ∨ challenge = none ∨
        mode = some "" ∨ token = some "" ∨ challenge = some "") →
      verify_webhook vt mode token challenge = ("Missing parameters", 400)) ∧
    (∀ m t c, mode = some m → token = some t → challenge = some c →
      m ≠ "" → t ≠ "" → c ≠ "" →
      ((m = "subscribe" ∧ vt = some t) →
        verify_webhook vt mode token challenge = (c, 200)) ∧
      (¬(m = "subscribe" ∧ vt = some t) →
        verify_webhook vt mode token challenge = ("Verification token mismatch", 403))) := by
  constructor
  · intro h
    rcases mode with _ | m
    · rfl
    rcases token with _ | t
    · rfl
    rcases challenge with _ | c
    · rfl
    have hone : m = "" ∨ t = "" ∨ c = "" := by
      rcases h with h | h | h | h | h | h
      · exact Option.noConfusion h
      · exact Option.noConfusion h
      · exact Option.noConfusion h
      · exact Or.inl (Option.some.inj h)
      · exact Or.inr (Or.inl (Option.some.inj h))
      · exact Or.inr (Or.inr (Option.some.inj h))
    unfold verify_webhook
    rcases hone with rfl | rfl | rfl <;> simp
  · intro m t c hm ht hc hm' ht' hc'
    subst hm; subst ht; subst hc
    unfold verify_webhook
    simp only [beq_eq_false_iff_ne, ne_eq]
    rw [if_neg (by simp [hm', ht', hc'])]
    constructor
    · rintro ⟨rfl, hvt⟩
      rw [if_pos (by simp [hvt])]
    · intro hneg
      rw [if_neg]
      intro hcond
      rw [Bool.and_eq_true] at hcond
      exact hneg ⟨by simpa using hcond.1, (eq_of_beq hcond.2).symm⟩

/-- Witness for C5: a matching request yields the challenge with 200, a wrong
mode yields 403, a missing mode yields 400. -/
theorem claim_C5_witness :
    verify_webhook (some "sek") (some "subscribe") (some "sek") (some "ch") = ("ch", 200) ∧
    verify_webhook (some "sek") (some "bad") (some "sek") (some "ch") =
      ("Verification token mismatch", 403) ∧
    verify_webhook (some "sek") none (some "sek") (some "ch") =
      ("Missing parameters", 400) := by
  refine ⟨?_, ?_, ?_⟩
  · exact ((claim_C5_amended (some "sek") (some "subscribe") (some "sek") (some "ch")).2
      "subscribe" "sek" "ch" rfl rfl rfl (by decide) (by decide) (by decide)).1 ⟨rfl, rfl⟩
  · exact ((claim_C5_amended (some "sek") (some "bad") (some "sek") (some "ch")).2
      "bad" "sek" "ch" rfl rfl rfl (by decide) (by decide) (by decide)).2 (by simp)
  · exact (claim_C5_amended (some "sek") none (some "sek") (some "ch")).1 (Or.inl rfl)

/-- Claim C2 (confirmed): for a comment on media `mid` whose rule-table entry
exists (truthy) with a non-empty reply template, that rule is resolved and its
rendered template is the private reply dispatched — with no hypothesis at all
on the comment text, so in particular even when the text contains none of the
rule's own keywords or contains keywords of the `DEFAULT_KEYWORDS` rule. -/
theorem claim_C2 (env : Env) (acct : Account) (v : ChangeValue) (st : Store)
    (sent : List Outbound) (ct : Nat) (cid ctext ig mid tpl uname : String) (cfg : RuleCfg)
    (hct : v.created_time = some ct) (hid : v.id = some cid) (htext : v.text = some ctext)
    (hfrom : v.from_id = some ig) (hmid : v.media_id = some mid)
    (huser : v.from_username = some uname)
    (h1 : cid ≠ "") (h2 : ctext ≠ "") (h3 : ig ≠ "") (h4 : mid ≠ "")
    (hlk : lookupCfg env.reel_keywords mid = some cfg)
    (htpl : cfg.private_reply_message = some tpl) (hne : tpl ≠ "")
    (hfresh : st.comments.all (fun r => r.comment_id != cid) = true)
    (hgate : env.gate ig acct.page_access_token = true) :
    resolveRule env.reel_keywords mid (lowerStr ctext) = some cfg ∧
    ∃ st' : Store, processComment env acct v (st, sent) =
      .ok (st', sent ++ [Outbound.privateReply cid (pyReplace tpl usernamePat uname)]) := by
  have htr : cfgTruthy cfg = true := by simp [cfgTruthy, htpl]
  have hres := resolveRule_media (lowerStr ctext) hlk htr
  refine ⟨hres, ?_⟩
  obtain ⟨st1, uid, hcom, hrun⟩ :=
    processComment_run env acct v st sent ct cid ctext ig mid
      hct hid htext hfrom hmid h1 h2 h3 h4
  rw [hrun]
  have hfresh1 : st1.comments.all (fun r => r.comment_id != cid) = true := by
    rw [hcom]; exact hfresh
  simp only [insertComment_ok st1 (⟨st1.nextCommentId, some uid, cid, mid, some ctext, ct / 1000⟩ : CommentRow) hfresh1]
  rw [commentAutomation_template hres htpl hne, huser]
  simp only [hgate, if_true]
  rw [sendPR_eta]
  exact ⟨_, rfl⟩

/-- Witness for C2: media `M2` has a template but the comment text matches
only default keywords; the dispatched reply is still `M2`'s rendered
template. -/
theorem claim_C2_witness :
    ∃ st' : Store, processComment envW acctW vM2 (store0, []) =
      .ok (st', [Outbound.privateReply "c1" "Link: alice"]) := by
  obtain ⟨st', h⟩ :=
    (claim_C2 envW acctW vM2 store0 [] 1000 "c1" "send me the LINK please" "u9" "M2"
      "Link: {username}" "alice" { keywords := none, private_reply_message := some "Link: {username}" }
      rfl rfl rfl rfl rfl rfl (by decide) (by decide) (by decide) (by decide)
      rfl rfl (by decide) rfl rfl).2
  exact ⟨st', by rw [h]; rfl⟩

/-- Claim C3 (counterexample): media `M1` has a truthy rule entry with no
reply template, the comment text contains the default keyword `link`, and the
`DEFAULT_KEYWORDS` rule has a non-empty template — the claim requires a reply
to be sent via the default scan, but the code sends nothing (the truthy
media-specific entry short-circuits the default scan). -/
theorem claim_C3_counterexample :
    sentPart (processChange envW acctW { field := some "comments", value := some vW }
      (store0, [])) = some [] := rfl

/-- Claim C3 (amended): a media-specific entry that is truthy but lacks a
non-empty reply template blocks the default scan entirely — no reply is sent
even when the text matches a default keyword; resolution falls through to the
`DEFAULT_KEYWORDS` scan only when the media entry is absent or falsy (an
empty mapping), in which case a matching default keyword with a non-empty
default template does produce the default reply. -/
theorem claim_C3_amended (env : Env) (acct : Account) (v : ChangeValue) (st : Store)
    (sent : List Outbound) (ct : Nat) (cid ctext ig mid : String)
    (hct : v.created_time = some ct) (hid : v.id = some cid) (htext : v.text = some ctext)
    (hfrom : v.from_id = some ig) (hmid : v.media_id = some mid)
    (h1 : cid ≠ "") (h2 : ctext ≠ "") (h3 : ig ≠ "") (h4 : mid ≠ "")
    (hfresh : st.comments.all (fun r => r.comment_id != cid) = true) :
    (∀ cfg : RuleCfg, lookupCfg env.reel_keywords mid = some cfg →
      cfgTruthy cfg = true → truthyStr cfg.private_reply_message = false →
      ∃ st' : Store, processComment env acct v (st, sent) = .ok (st', sent)) ∧
    (∀ (d : RuleCfg) (dtpl uname k : String),
      optCfgTruthy (lookupCfg env.reel_keywords mid) = false →
      lookupCfg env.reel_keywords "DEFAULT_KEYWORDS" = some d →
      d.private_reply_message = some dtpl → dtpl ≠ "" →
      k ∈ d.keywords.getD [] → containsStr (lowerStr ctext) (lowerStr k) = true →
      v.from_username = some uname →
      env.gate ig acct.page_access_token = true →
      ∃ st' : Store, processComment env acct v (st, sent) =
        .ok (st', sent ++ [Outbound.privateReply cid (pyReplace dtpl usernamePat uname)])) := by
  obtain ⟨st1, uid, hcom, hrun⟩ :=
    processComment_run env acct v st sent ct cid ctext ig mid
      hct hid htext hfrom hmid h1 h2 h3 h4
  have hfresh1 : st1.comments.all (fun r => r.comment_id != cid) = true := by
    rw [hcom]; exact hfresh
  constructor
  · intro cfg hlk htr htpl
    have htr' : cfgTruthy cfg = true := htr
    have hres := resolveRule_media (lowerStr ctext) hlk htr'
    rw [hrun]
    simp only [insertComment_ok st1 (⟨st1.nextCommentId, some uid, cid, mid, some ctext, ct / 1000⟩ : CommentRow) hfresh1]
    rw [commentAutomation_blocked hres htpl]
    exact ⟨_, rfl⟩
  · intro d dtpl uname k hm hd hdtpl hdne hk hpk huser hgate
    have hres := resolveRule_default hm hd hk hpk
    rw [hrun]
    simp only [insertComment_ok st1 (⟨st1.nextCommentId, some uid, cid, mid, some ctext, ct / 1000⟩ : CommentRow) hfresh1]
    rw [commentAutomation_template hres hdtpl hdne, huser]
    simp only [hgate, if_true]
    rw [sendPR_eta]
    exact ⟨_, rfl⟩

/-- Witness for C3 (amended): with no media entry for `M9`, the text
`"send me the LINK please"` triggers the default rule's rendered template. -/
theorem claim_C3_witness :
    ∃ st' : Store,
      processComment envW acctW { vW with media_id := some "M9" } (store0, []) =
        .ok (st', [Outbound.privateReply "c1" "Default alice"]) := by
  obtain ⟨st', h⟩ :=
    (claim_C3_amended envW acctW { vW with media_id := some "M9" } store0 [] 1000
      "c1" "send me the LINK please" "u9" "M9"
      rfl rfl rfl rfl rfl (by decide) (by decide) (by decide) (by decide) rfl).2
      dW "Default {username}" "alice" "link" rfl rfl rfl (by decide) (by decide)
      (by decide) rfl rfl
  exact ⟨st', by rw [h]; rfl⟩

/-- Claim C8 (confirmed): when a rule with a non-empty template resolves, the
dispatched private reply is the rendered template if the follower gate
returns true and the fixed follow-request message if it returns false, always
addressed to the comment id; and the reference gate
`check_if_user_follows_page` always returns true. -/
theorem claim_C8 (env : Env) (acct : Account) (v : ChangeValue) (st : Store)
    (sent : List Outbound) (ct : Nat) (cid ctext ig mid tpl uname : String) (cfg : RuleCfg)
    (hct : v.created_time = some ct) (hid : v.id = some cid) (htext : v.text = some ctext)
    (hfrom : v.from_id = some ig) (hmid : v.media_id = some mid)
    (huser : v.from_username = some uname)
    (h1 : cid ≠ "") (h2 : ctext ≠ "") (h3 : ig ≠ "") (h4 : mid ≠ "")
    (hlk : lookupCfg env.reel_keywords mid = some cfg)
    (htpl : cfg.private_reply_message = some tpl) (hne : tpl ≠ "")
    (hfresh : st.comments.all (fun r => r.comment_id != cid) = true) :
    (∃ st' : Store, processComment env acct v (st, sent) =
      .ok (st', sent ++ [Outbound.privateReply cid
        (if env.gate ig acct.page_access_token then pyReplace tpl usernamePat uname
         else non_follower_dm_message (some uname))])) ∧
    (∀ a b : String, check_if_user_follows_page a b = true) := by
  have htr : cfgTruthy cfg = true := by simp [cfgTruthy, htpl]
  have hres := resolveRule_media (lowerStr ctext) hlk htr
  obtain ⟨st1, uid, hcom, hrun⟩ :=
    processComment_run env acct v st sent ct cid ctext ig mid
      hct hid htext hfrom hmid h1 h2 h3 h4
  have hfresh1 : st1.comments.all (fun r => r.comment_id != cid) = true := by
    rw [hcom]; exact hfresh
  refine ⟨?_, fun _ _ => rfl⟩
  rw [hrun]
  simp only [insertComment_ok st1 (⟨st1.nextCommentId, some uid, cid, mid, some ctext, ct / 1000⟩ : CommentRow) hfresh1]
  rw [commentAutomation_template hres htpl hne, huser]
  cases hg : env.gate ig acct.page_access_token with
  | true =>
      simp only [if_true]
      rw [sendPR_eta]
      exact ⟨_, rfl⟩
  | false =>
      simp only [Bool.false_eq_true, if_false]
      rw [sendPR_eta]
      exact ⟨_, rfl⟩

/-- Witness for C8: with a gate that returns false the dispatched reply is
the fixed follow-request message, not `M2`'s configured template. -/
theorem claim_C8_witness :
    ∃ st' : Store, processComment envNoFollow acctW vM2 (store0, []) =
      .ok (st', [Outbound.privateReply "c1" (non_follower_dm_message (some "alice"))]) := by
  obtain ⟨st', h⟩ :=
    (claim_C8 envNoFollow acctW vM2 store0 [] 1000 "c1" "send me the LINK please" "u9" "M2"
      "Link: {username}" "alice" { keywords := none, private_reply_message := some "Link: {username}" }
      rfl rfl rfl rfl rfl rfl (by decide) (by decide) (by decide) (by decide)
      rfl rfl (by decide) rfl).1
  exact ⟨st', by rw [h]; rfl⟩

/-- Claim C9 (counterexample): a comment event that passes the required-field
guard and resolves media `M2`'s rule, but whose commenter `username` field is
absent: the claim requires the template to be rendered and dispatched, yet
`str.replace` with a `None` username raises a `TypeError` and nothing is
dispatched. -/
theorem claim_C9_counterexample :
    processChange envW acctW { field := some "comments", value := some vNoName }
      (store0, []) = .error "TypeError: replace" := rfl

/-- Claim C9 (amended): for every comment event that passes the guard and
resolves a rule with a non-empty template, with the commenter's username
present, the dispatched reply is the template with every literal
`"{username}"` occurrence replaced by the username (Python `str.replace`,
left to right, no rescanning of the replacement); a template with no
placeholder is dispatched unchanged.  When the username field is absent the
code instead raises a `TypeError`. -/
theorem claim_C9_amended (env : Env) (acct : Account) (v : ChangeValue) (st : Store)
    (sent : List Outbound) (ct : Nat) (cid ctext ig mid tpl uname : String) (cfg : RuleCfg)
    (hct : v.created_time = some ct) (hid : v.id = some cid) (htext : v.text = some ctext)
    (hfrom : v.from_id = some ig) (hmid : v.media_id = some mid)
    (huser : v.from_username = some uname)
    (h1 : cid ≠ "") (h2 : ctext ≠ "") (h3 : ig ≠ "") (h4 : mid ≠ "")
    (hlk : lookupCfg env.reel_keywords mid = some cfg)
    (htpl : cfg.private_reply_message = some tpl) (hne : tpl ≠ "")
    (hfresh : st.comments.all (fun r => r.comment_id != cid) = true)
    (hgate : env.gate ig acct.page_access_token = true) :
    (∃ st' : Store, processComment env acct v (st, sent) =
      .ok (st', sent ++ [Outbound.privateReply cid (pyReplace tpl usernamePat uname)])) ∧
    (containsStr tpl usernamePat = false → pyReplace tpl usernamePat uname = tpl) := by
  refine ⟨?_, fun h => pyReplace_id tpl usernamePat uname h⟩
  have htr : cfgTruthy cfg = true := by simp [cfgTruthy, htpl]
  have hres := resolveRule_media (lowerStr ctext) hlk htr
  obtain ⟨st1, uid, hcom, hrun⟩ :=
    processComment_run env acct v st sent ct cid ctext ig mid
      hct hid htext hfrom hmid h1 h2 h3 h4
  have hfresh1 : st1.comments.all (fun r => r.comment_id != cid) = true := by
    rw [hcom]; exact hfresh
  rw [hrun]
  simp only [insertComment_ok st1 (⟨st1.nextCommentId, some uid, cid, mid, some ctext, ct / 1000⟩ : CommentRow) hfresh1]
  rw [commentAutomation_template hres htpl hne, huser]
  simp only [hgate, if_true]
  rw [sendPR_eta]
  exact ⟨_, rfl⟩

/-- Witness for C9 (amended): `M2`'s template renders with the username, and
a placeholder-free template is dispatched unchanged. -/
theorem claim_C9_witness :
    (∃ st' : Store, processComment envW acctW vM2 (store0, []) =
      .ok (st', [Outbound.privateReply "c1"
        (pyReplace "Link: {username}" usernamePat "alice")])) ∧
    (containsStr "Link: {username}" usernamePat = false →
      pyReplace "Link: {username}" usernamePat "alice" = "Link: {username}") :=
  claim_C9_amended envW acctW vM2 store0 [] 1000 "c1" "send me the LINK please" "u9" "M2"
    "Link: {username}" "alice" { keywords := none, private_reply_message := some "Link: {username}" }
    rfl rfl rfl rfl rfl rfl (by decide) (by decide) (by decide) (by decide)
    rfl rfl (by decide) rfl rfl

/-- Claim C7 (counterexample): a comments change event missing both
`media.id` and `created_time`: the claim requires a silent skip with no side
effects, but line 408 divides `value.get("created_time")` before the guard,
raising a `TypeError` instead of skipping. -/
theorem claim_C7_counterexample :
    processChange envW acctW { field := some "comments", value := some vNoCt }
      (store0, []) = .error "TypeError: created_time" := rfl

/-- Claim C7 (amended): for every comments change event whose `created_time`
is present, if any of comment id, text, commenter id or media id is absent
(or empty), the event is skipped silently: no user row, no comment row, no
dispatch — the state is returned unchanged.  (Without `created_time` the
event raises instead of skipping.) -/
theorem claim_C7_amended (env : Env) (acct : Account) (v : ChangeValue)
    (s : Store × List Outbound) (ct : Nat)
    (hct : v.created_time = some ct)
    (hguard : (truthyStr v.id && truthyStr v.text && truthyStr v.from_id &&
      truthyStr v.media_id) = false) :
    processChange env acct { field := some "comments", value := some v } s = .ok s := by
  have hred : processChange env acct { field := some "comments", value := some v } s =
      processComment env acct v s := rfl
  rw [hred]
  unfold processComment
  simp only [hct, pyGet, Bind.bind, Except.bind]
  rcases h1 : v.id with _ | cid <;> rcases h2 : v.text with _ | ctext <;>
    rcases h3 : v.from_id with _ | ig <;> rcases h4 : v.media_id with _ | mid <;>
    simp_all [truthyStr]

/-- Witness for C7 (amended): an event with `media.id` absent (and
`created_time` present) leaves the store and outbound list unchanged. -/
theorem claim_C7_witness :
    processChange envW acctW { field := some "comments", value := some vNoMedia }
      (store0, []) = .ok (store0, []) :=
  claim_C7_amended envW acctW vNoMedia (store0, []) 1000 rfl (by decide)

/-- Claim C10 (confirmed): `Comment.comment_id` is unique, so a second
comments change bearing an already persisted comment id makes the insert's
commit raise an integrity error inside entry processing; the duplicate is
neither ignored nor stored, and the delivery's handler run ends in the error
rather than the normal 200 acknowledgement. -/
theorem claim_C10 (env : Env) (acct : Account) (v : ChangeValue) (st : Store)
    (sent : List Outbound) (ct : Nat) (cid ctext ig mid pid : String) (r : CommentRow)
    (hct : v.created_time = some ct) (hid : v.id = some cid) (htext : v.text = some ctext)
    (hfrom : v.from_id = some ig) (hmid : v.media_id = some mid)
    (h1 : cid ≠ "") (h2 : ctext ≠ "") (h3 : ig ≠ "") (h4 : mid ≠ "")
    (hr : r ∈ st.comments) (hrid : r.comment_id = cid)
    (hpid : pid ≠ "")
    (hacct : env.accounts.find? (fun a => a.page_id == pid) = some acct) :
    processChange env acct { field := some "comments", value := some v } (st, sent) =
      .error "IntegrityError: comment" ∧
    handle_webhook env st
      (some [(⟨some pid, none, some [⟨some "comments", some v⟩]⟩ : Entry)]) =
      .error "IntegrityError: comment" := by
  have key : ∀ sent' : List Outbound,
      processChange env acct { field := some "comments", value := some v } (st, sent') =
        .error "IntegrityError: comment" := by
    intro sent'
    obtain ⟨st1, uid, hcom, hrun⟩ :=
      processComment_run env acct v st sent' ct cid ctext ig mid
        hct hid htext hfrom hmid h1 h2 h3 h4
    have hdup : (st1.comments.all (fun x => x.comment_id != cid)) = false := by
      rw [hcom]; exact comments_all_false_of_dup st cid r hr hrid
    have hic : insertComment st1
        (⟨st1.nextCommentId, some uid, cid, mid, some ctext, ct / 1000⟩ : CommentRow) =
        .error "IntegrityError: comment" := by
      simp [insertComment, hdup]
    have hred : processChange env acct { field := some "comments", value := some v }
        (st, sent') = processComment env acct v (st, sent') := rfl
    rw [hred, hrun, hic]
  refine ⟨key sent, ?_⟩
  have hpage : entryPageId (⟨some pid, none, some [⟨some "comments", some v⟩]⟩ : Entry) =
      .ok (some pid) := by
    unfold entryPageId
    simp [truthyStr, hpid]
  have hchanges : processChanges env acct
      [{ field := some "comments", value := some v }] (st, []) =
      .error "IntegrityError: comment" := by
    unfold processChanges
    simp only [key [], Bind.bind, Except.bind]
  have hentry : processEntry env (⟨some pid, none, some [⟨some "comments", some v⟩]⟩ : Entry)
      (st, []) = .error "IntegrityError: comment" := by
    unfold processEntry
    simp only [hpage, Bind.bind, Except.bind, hacct, truthyList, Option.getD_some,
      Bool.false_eq_true, if_false, if_true, hchanges]
  unfold handle_webhook processEntries
  simp only [hentry, Bind.bind, Except.bind, Except.map]

/-- Witness for C10: redelivering a comment with id `c1` against a store
already holding that comment id raises the integrity error and aborts the
delivery. -/
theorem claim_C10_witness :
    processChange envW acctW { field := some "comments", value := some vW }
      (stDup, []) = .error "IntegrityError: comment" ∧
    handle_webhook envW stDup
      (some [(⟨some "P1", none, some [⟨some "comments", some vW⟩]⟩ : Entry)]) =
      .error "IntegrityError: comment" :=
  claim_C10 envW acctW vW stDup [] 1000 "c1" "send me the LINK please" "u9" "M1" "P1" rowDup
    rfl rfl rfl rfl rfl (by decide) (by decide) (by decide) (by decide)
    (by simp [stDup]) rfl (by decide) rfl

/-- Claim C6 (confirmed): processing two inbound DMs from the same PSID
against a store with no user for that PSID yields exactly one `User` row
carrying that PSID, while exactly two further inbound-DM `Message` rows
linked to that user's (fresh) id are logged. -/
theorem claim_C6 (env : Env) (pid1 pid2 p t1 t2 : String) (ts1 ts2 : Nat)
    (st : Store) (sent : List Outbound)
    (hfree : ∀ u ∈ st.users, u.psid ≠ some p) :
    ∃ (st1 : Store) (sent1 : List Outbound) (st2 : Store) (sent2 : List Outbound),
      handleInboundDm env pid1 p t1 ts1 (st, sent) = .ok (st1, sent1) ∧
      handleInboundDm env pid2 p t2 ts2 (st1, sent1) = .ok (st2, sent2) ∧
      countUsersPsid st2 p = 1 ∧
      inboundDmCountFor st2 st.nextUserId =
        inboundDmCountFor st st.nextUserId + 2 := by
  have hfind : findUserByPsid st p = none := by
    unfold findUserByPsid
    rw [List.find?_eq_none]
    intro u hu
    simpa using hfree u hu
  obtain ⟨st1, sent1, h1, ⟨u, hupsid, huid, husers⟩, hcount1⟩ :=
    handleInboundDm_fresh env pid1 p t1 ts1 st sent hfind
  have hfind1 : findUserByPsid st1 p = some u := by
    unfold findUserByPsid
    rw [husers, find?_append_of_none _ _ _ hfind]
    rw [List.find?_cons_of_pos _ (by simp [hupsid])]
  obtain ⟨st2, sent2, h2, husers2, hcount2⟩ :=
    handleInboundDm_existing env pid2 p t2 ts2 st1 sent1 u hfind1
  refine ⟨st1, sent1, st2, sent2, h1, h2, ?_, ?_⟩
  · unfold countUsersPsid
    rw [husers2, husers, List.countP_map]
    have hc : ∀ x ∈ st.users ++ [u],
        ((fun r => r.psid == some p) ∘ fun r =>
          if r.id == u.id then { r with last_interaction_at := ts2 } else r) x = true ↔
        ((fun r : UserRow => r.psid == some p) x = true) := by
      intro x _
      by_cases hx : x.id = u.id <;> simp [hx]
    rw [List.countP_congr hc, List.countP_append]
    have h0 : st.users.countP (fun r => r.psid == some p) = 0 := by
      rw [List.countP_eq_zero]
      intro a ha
      simpa using hfree a ha
    rw [h0]
    simp [List.countP_cons, hupsid]
  · rw [hcount2 st.nextUserId, hcount1 st.nextUserId, huid]
    simp

/-- Witness for C6: two DMs from fresh PSID `psid9` against the empty store
produce one user row and two inbound message rows for the new user id. -/
theorem claim_C6_witness :
    ∃ (st1 : Store) (sent1 : List Outbound) (st2 : Store) (sent2 : List Outbound),
      handleInboundDm envW "P1" "psid9" "hello" 1 (store0, []) = .ok (st1, sent1) ∧
      handleInboundDm envW "P1" "psid9" "thanks" 2 (st1, sent1) = .ok (st2, sent2) ∧
      countUsersPsid st2 "psid9" = 1 ∧
      inboundDmCountFor st2 store0.nextUserId =
        inboundDmCountFor store0 store0.nextUserId + 2 :=
  claim_C6 envW "P1" "P1" "psid9" "hello" "thanks" 1 2 store0 [] (by simp [store0])

/-- Claim C1 (counterexample): a routable entry whose messaging event lacks
the `sender` key: the claim requires the 200 `status: ok` response with the
malformed event skipped, but `messaging_event["sender"]["id"]` raises a
`KeyError`, aborting the whole delivery with an error (Flask answers 500). -/
theorem claim_C1_counterexample :
    handle_webhook envW store0 (some [entryBadSender]) = .error "KeyError: sender" := rfl

/-- Claim C1 (amended): a body with `entry` absent or empty yields 400; when
every entry's processing completes without raising, the response is 200 with
`status: ok`; an entry that is unroutable (no page id, or no configured
account) is skipped unchanged and a completed entry hands its state to the
rest of the batch.  However, an entry whose processing raises (e.g. a
malformed event) aborts the whole delivery with an error instead of being
skipped. -/
theorem claim_C1_amended (env : Env) (st : Store) :
    handle_webhook env st none = .ok (400, st, []) ∧
    handle_webhook env st (some []) = .ok (400, st, []) ∧
    (∀ (es : List Entry) (st' : Store) (out : List Outbound), es ≠ [] →
      processEntries env es (st, []) = .ok (st', out) →
      handle_webhook env st (some es) = .ok (200, st', out)) ∧
    (∀ (e : Entry) (s : Store × List Outbound), entryPageId e = .ok none →
      processEntry env e s = .ok s) ∧
    (∀ (e : Entry) (s : Store × List Outbound) (pid : String),
      entryPageId e = .ok (some pid) →
      env.accounts.find? (fun a => a.page_id == pid) = none →
      processEntry env e s = .ok s) ∧
    (∀ (e : Entry) (es : List Entry) (s s' : Store × List Outbound),
      processEntry env e s = .ok s' →
      processEntries env (e :: es) s = processEntries env es s') := by
  refine ⟨rfl, rfl, ?_, ?_, ?_, ?_⟩
  · intro es st' out hne hrun
    cases es with
    | nil => exact absurd rfl hne
    | cons e rest =>
        have hdef : handle_webhook env st (some (e :: rest)) =
            (processEntries env (e :: rest) (st, [])).map (fun s => (200, s.1, s.2)) := rfl
        rw [hdef, hrun]
        rfl
  · intro e s h
    unfold processEntry
    simp only [h, Bind.bind, Except.bind]
  · intro e s pid h hacct
    unfold processEntry
    simp only [h, Bind.bind, Except.bind, hacct]
  · intro e es s s' h
    have hdef : processEntries env (e :: es) s =
        (processEntry env e s) >>= fun s1 => processEntries env es s1 := rfl
    rw [hdef, h]
    rfl

/-- Witness for C1 (amended): the 400 branch on a missing `entry` field, and
an entirely unroutable entry being skipped with the state unchanged. -/
theorem claim_C1_witness :
    handle_webhook envW store0 none = .ok (400, store0, []) ∧
    processEntry envW { id := none, messaging := none, changes := none }
      (store0, []) = .ok (store0, []) :=
  ⟨(claim_C1_amended envW store0).1,
   (claim_C1_amended envW store0).2.2.2.1 { id := none, messaging := none, changes := none }
     (store0, []) rfl⟩

end Bot
